import Mathlib

/-!
Shallow embedding of the Home page component of `src/app/page.tsx`
(a crypto-to-fiat off-ramp form UI).

The embedding covers:
* JavaScript number arithmetic over exact rationals with an explicit NaN
  (`JNum`), as used by the fee-calculation effect;
* the fee-calculation effect (lines 211-223) as a state transformer;
* the view-selection ternary of the render body (lines 234-274) and the
  form-emptiness check (lines 252-254);
* the payload construction of the rate fetch (lines 179-195);
* trace models of the three fetch effects: render/change events feed a
  trigger list (an effect re-runs when its dependency array changes), a
  debounce stage (setTimeout 1000 / clearTimeout on cleanup) for the
  effects that have one, and the guarded fetch body;
* the state writes performed by each fetch on success and on failure.

Infinities are not modelled: JavaScript division producing ±Infinity
(nonzero over zero) is conflated with NaN; no claim exercises that case.
-/

/-- A JavaScript number: either a finite value (modelled exactly as a
rational) or NaN. -/
inductive JNum where
  | num (q : ℚ)
  | nan
deriving DecidableEq

/-- JavaScript multiplication: NaN propagates. -/
def jmul : JNum → JNum → JNum
  | JNum.num a, JNum.num b => JNum.num (a * b)
  | _, _ => JNum.nan

/-- JavaScript division: NaN propagates; division by zero yields a
non-finite result (±Infinity or NaN in JavaScript), modelled as NaN. -/
def jdiv : JNum → JNum → JNum
  | JNum.num a, JNum.num b => if b = 0 then JNum.nan else JNum.num (a / b)
  | _, _ => JNum.nan

/-- Falsiness of a JavaScript number: 0 and NaN are falsy. -/
def jfalsy : JNum → Bool
  | JNum.num a => decide (a = 0)
  | JNum.nan => true

/-- Rounding to 5 decimal places, the effect of
`Number(x).toFixed(5)` followed by `parseFloat` on a finite value. -/
def round5 (q : ℚ) : ℚ := ((round (q * 100000) : ℤ) : ℚ) / 100000

/-- `parseFloat(Number(x).toFixed(5))` on a JavaScript number:
`(NaN).toFixed(5)` is the string "NaN" and `parseFloat("NaN")` is NaN. -/
def round5j : JNum → JNum
  | JNum.num a => JNum.num (round5 a)
  | JNum.nan => JNum.nan

/-- `Number(protocolFeeDetails?.[0]!)` and `Number(protocolFeeDetails?.[1]!)`:
when the contract read has not resolved, `protocolFeeDetails` is undefined
and both conversions give NaN; otherwise the on-chain bigint pair converts
to the corresponding numbers. -/
def feeDetailsNum : Option (ℤ × ℤ) → JNum × JNum
  | none => (JNum.nan, JNum.nan)
  | some (a, b) => (JNum.num (a : ℚ), JNum.num (b : ℚ))

/-- The two state slots written by the fee-calculation effect. -/
structure FeeState where
  protocolFeePercent : JNum
  fee : JNum
deriving DecidableEq

/-- One run of the fee-calculation effect (lines 211-223):
`setProtocolFeePercent(Number(details?.[0]!) / Number(details?.[1]!))`
then `setFee(parseFloat(Number(protocolFeePercent * Number(amount)).toFixed(5)))`.
The closure reads `protocolFeePercent` of the render that scheduled this
run, so the fee is computed from the previous value, not the one just
derived. The effect lists `protocolFeeDetails`, `amount` and
`protocolFeePercent` as dependencies, so it re-runs whenever the percent
it wrote differs from the previous one. -/
def feeEffect (protocolFeeDetails : Option (ℤ × ℤ)) (amount : JNum)
    (s : FeeState) : FeeState :=
  { protocolFeePercent :=
      jdiv (feeDetailsNum protocolFeeDetails).1 (feeDetailsNum protocolFeeDetails).2
    fee := round5j (jmul s.protocolFeePercent amount) }

/-- Initial values of the two `useState(0)` slots. -/
def initialFeeState : FeeState :=
  { protocolFeePercent := JNum.num 0, fee := JNum.num 0 }

/-- The form state record (fields of `INITIAL_FORM_STATE`, lines 24-33). -/
structure FormData where
  network : String
  token : String
  amount : JNum
  currency : String
  institution : String
  accountIdentifier : String
  recipientName : String
  memo : String
deriving DecidableEq

/-- `INITIAL_FORM_STATE` (lines 24-33). -/
def INITIAL_FORM_STATE : FormData :=
  { network := "", token := "", amount := JNum.num 0, currency := ""
    institution := "", accountIdentifier := "", recipientName := "", memo := "" }

/-- The transaction status values (lines 69-77). -/
inductive TransactionStatus where
  | idle
  | pending
  | processing
  | fulfilled
  | validated
  | settled
  | refunded
deriving DecidableEq

/-- A JavaScript value held in a form field: either a string or a number. -/
inductive JSValue where
  | str (s : String)
  | numv (a : JNum)
deriving DecidableEq

/-- `Object.values(formValues)` in field declaration order. -/
def FormData.objectValues (fv : FormData) : List JSValue :=
  [JSValue.str fv.network, JSValue.str fv.token, JSValue.numv fv.amount,
   JSValue.str fv.currency, JSValue.str fv.institution,
   JSValue.str fv.accountIdentifier, JSValue.str fv.recipientName,
   JSValue.str fv.memo]

/-- The per-value test of line 253: `value === "" || value === 0`.
A string is strictly equal to "" exactly when it is empty (a string is
never `===` to the number 0), and a number is strictly equal to 0 exactly
when it is the finite value 0 (NaN `===` 0 is false, and a number is
never `===` to a string). -/
def jsEmptyOrZero : JSValue → Bool
  | JSValue.str s => decide (s = "")
  | JSValue.numv a => decide (a = JNum.num 0)

/-- Lines 252-254: `Object.values(formValues).every(v => v === "" || v === 0)`. -/
def isEmptyForm (fv : FormData) : Bool :=
  fv.objectValues.all jsEmptyOrZero

/-- Spec-side emptiness, following the words of the spec: the form counts
as empty iff every one of its fields equals "" or 0. -/
def formAllFieldsDefault (fv : FormData) : Prop :=
  fv.network = "" ∧ fv.token = "" ∧ fv.amount = JNum.num 0 ∧ fv.currency = ""
    ∧ fv.institution = "" ∧ fv.accountIdentifier = "" ∧ fv.recipientName = ""
    ∧ fv.memo = ""

/-- The three views the render body can choose among. -/
inductive View where
  | statusView
  | formView
  | previewView
deriving DecidableEq

/-- The view-selection logic of the render body (lines 234-274):
`transactionStatus !== "idle"` forces the status view; otherwise the
emptiness of `formValues` picks the form view over the preview view. -/
def selectView (transactionStatus : TransactionStatus) (formValues : FormData) :
    View :=
  if transactionStatus ≠ TransactionStatus.idle then View.statusView
  else if isEmptyForm formValues then View.formView
  else View.previewView

/-- The payload of a `fetchRate` call (line 185-189). -/
structure RateRequest where
  token : String
  amount : JNum
  currency : String
deriving DecidableEq

/-- The body of `getRate` (lines 181-195): the guard
`if (!currency || !amount || !token) return;` then
`fetchRate({ token: "USDT", amount: amount, currency: currency })`.
The request's token field is the literal "USDT", not the watched token. -/
def getRate (currency : String) (amount : JNum) (token : String) :
    Option RateRequest :=
  if currency = "" ∨ jfalsy amount = true ∨ token = "" then none
  else some { token := "USDT", amount := amount, currency := currency }

/-- The institutions effect body (lines 126-140) run at one currency-change
event `(time, currency)`: the guard `if (!currency) return;` and then an
immediate `fetchSupportedInstitutions(currency)` call — this effect has no
setTimeout, so the request goes out at the change time itself. -/
def runInstitutionsEffect (e : ℕ × String) : List (ℕ × String) :=
  if e.2 = "" then [] else [e]

/-- The outbound institutions requests produced by a sequence of
currency-change events (each event re-runs the effect, whose dependency
array is `[currency]`). Times are strictly increasing along the list. -/
def institutionsRequests : List (ℕ × String) → List (ℕ × String)
  | [] => []
  | e :: rest => runInstitutionsEffect e ++ institutionsRequests rest

/-- The number of 1000ms-quiescent windows in a strictly increasing list of
event times: a window ends at each event that is followed by a gap of more
than 1000ms (or by nothing). -/
def numQuiescentWindows : List ℕ → ℕ
  | [] => 0
  | [_] => 1
  | t :: t2 :: rest =>
      (if t2 > t + 1000 then 1 else 0) + numQuiescentWindows (t2 :: rest)

/-- A render of the Home component as seen by the recipient-name effect:
its time and the watched `accountIdentifier` and `institution` values. -/
structure RenderSnapshot where
  time : ℕ
  accountIdentifier : String
  institution : String
deriving DecidableEq

/-- The renders after the mount at which the recipient-name effect re-runs:
its dependency array (line 176) is `[accountIdentifier]`, so the effect
re-runs exactly when `accountIdentifier` differs from its previous value. -/
def recipientTriggersAux : String → List RenderSnapshot → List RenderSnapshot
  | _, [] => []
  | prev, e :: rest =>
      if e.accountIdentifier ≠ prev then
        e :: recipientTriggersAux e.accountIdentifier rest
      else recipientTriggersAux prev rest

/-- The renders at which the recipient-name effect runs: the mount (an
effect always runs on its first render) and every later render where
`accountIdentifier` changed. -/
def recipientTriggers : List RenderSnapshot → List RenderSnapshot
  | [] => []
  | e :: rest => e :: recipientTriggersAux e.accountIdentifier rest

/-- The debounce stage (lines 165-174): each effect run clears the pending
timer of the previous run and schedules its own at time + 1000, so a run's
timer fires exactly when no later run happens within 1000ms. Times are
strictly increasing along the list. -/
def debounceFire : List RenderSnapshot → List RenderSnapshot
  | [] => []
  | [e] => [e]
  | e :: e2 :: rest =>
      (if e2.time > e.time + 1000 then [e] else []) ++ debounceFire (e2 :: rest)

/-- The payload of a `fetchAccountName` call (lines 153-156), tagged with
the time at which the request goes out. -/
structure RecipientRequest where
  time : ℕ
  institution : String
  accountIdentifier : String
deriving DecidableEq

/-- The fired timer runs `getRecipientName` (lines 147-163): the guard
`if (!accountIdentifier || !institution) return;` and then
`fetchAccountName({ institution, accountIdentifier })`, issued 1000ms after
the run that scheduled the timer, with the values that run captured. -/
def runRecipientFetch (e : RenderSnapshot) : List RecipientRequest :=
  if e.accountIdentifier = "" ∨ e.institution = "" then []
  else [{ time := e.time + 1000, institution := e.institution,
          accountIdentifier := e.accountIdentifier }]

/-- All recipient-name requests produced by a list of fired timers. -/
def recipientFetchAll : List RenderSnapshot → List RecipientRequest
  | [] => []
  | e :: rest => runRecipientFetch e ++ recipientFetchAll rest

/-- The outbound recipient-name requests produced by a render sequence:
renders are filtered to effect runs, debounced, and the surviving timers
run the guarded fetch. -/
def recipientRequests (renders : List RenderSnapshot) : List RecipientRequest :=
  recipientFetchAll (debounceFire (recipientTriggers renders))

/-- An institution entry. Modelled from the spec: the `InstitutionProps`
type imported from `./types` is not in the sources; the spec describes an
institution as a code/name pair used to populate a selector. Its shape is
irrelevant to the claims, which treat the institutions list as opaque. -/
structure InstitutionProps where
  name : String
  code : String
deriving DecidableEq

/-- The component state slots written by the three fetchers. -/
structure HomeState where
  institutions : List InstitutionProps
  isFetchingInstitutions : Bool
  recipientName : String
  isFetchingRecipientName : Bool
  rate : ℚ
  isFetchingRate : Bool
deriving DecidableEq

/-- Line 129: `setIsFetchingInstitutions(true)` before the request. -/
def institutionsStart (s : HomeState) : HomeState :=
  { s with isFetchingInstitutions := true }

/-- Lines 132-134: on success, `setInstitutions(...)` then
`setIsFetchingInstitutions(false)`. -/
def institutionsSuccess (v : List InstitutionProps) (s : HomeState) : HomeState :=
  { s with institutions := v, isFetchingInstitutions := false }

/-- Lines 135-137: the catch block only calls `console.log(error)` — no
state is written. -/
def institutionsFailure (s : HomeState) : HomeState := s

/-- Line 150: `setIsFetchingRecipientName(true)` before the request. -/
def recipientStart (s : HomeState) : HomeState :=
  { s with isFetchingRecipientName := true }

/-- Lines 157-158: on success, `setRecipientName(accountName)` then
`setIsFetchingRecipientName(false)`. -/
def recipientSuccess (n : String) (s : HomeState) : HomeState :=
  { s with recipientName := n, isFetchingRecipientName := false }

/-- Lines 159-162: the catch block sets `recipientName` to "" and
`isFetchingRecipientName` to false. -/
def recipientFailure (s : HomeState) : HomeState :=
  { s with recipientName := "", isFetchingRecipientName := false }

/-- Line 183: `setIsFetchingRate(true)` before the request. -/
def rateStart (s : HomeState) : HomeState :=
  { s with isFetchingRate := true }

/-- Lines 190-191: on success, `setRate(rate.data)` then
`setIsFetchingRate(false)`. -/
def rateSuccess (r : ℚ) (s : HomeState) : HomeState :=
  { s with rate := r, isFetchingRate := false }

/-- Lines 192-194: the catch block only calls `console.log(error)` — no
state is written. -/
def rateFailure (s : HomeState) : HomeState := s

/-- C1: for every amount > 0 and every fee percent in [0,1] derived from the
on-chain ratio pair, once the fee-calculation effect has run to quiescence
(two runs reach a fixpoint, since the percent it writes is one of its own
dependencies), the fee state equals the fee percent times the amount,
rounded to 5 decimal places. -/
theorem fee_effect_quiescent (n d : ℤ) (a : ℚ) (s : FeeState)
    (hd : d ≠ 0) (h0 : 0 ≤ (n : ℚ) / (d : ℚ)) (h1 : (n : ℚ) / (d : ℚ) ≤ 1)
    (ha : 0 < a) :
    (feeEffect (some (n, d)) (JNum.num a)
        (feeEffect (some (n, d)) (JNum.num a) s)).fee
      = JNum.num (round5 ((n : ℚ) / (d : ℚ) * a))
    ∧ feeEffect (some (n, d)) (JNum.num a)
          (feeEffect (some (n, d)) (JNum.num a)
            (feeEffect (some (n, d)) (JNum.num a) s))
        = feeEffect (some (n, d)) (JNum.num a)
            (feeEffect (some (n, d)) (JNum.num a) s) := by
  have hdq : (d : ℚ) ≠ 0 := Int.cast_ne_zero.mpr hd
  constructor
  · simp [feeEffect, feeDetailsNum, jdiv, jmul, round5j, hdq]
  · simp [feeEffect, feeDetailsNum, jdiv, jmul, round5j, hdq]

/-- Witness for C1: with ratio 1/2 and amount 10, the quiescent fee is 5. -/
theorem fee_effect_quiescent_witness :
    (feeEffect (some (1, 2)) (JNum.num 10)
        (feeEffect (some (1, 2)) (JNum.num 10) initialFeeState)).fee
      = JNum.num 5 := by
  have h := (fee_effect_quiescent 1 2 10 initialFeeState (by decide)
    (by norm_num) (by norm_num) (by norm_num)).1
  rw [h]
  norm_num [round5, round_eq]

/-- C2: whenever the transaction status is not idle, the render body picks
the transaction-status view, whatever the form values are; the choice of
view is the pure function selectView of the transaction status and the
form values only. -/
theorem status_view_forced (ts : TransactionStatus) (fv : FormData)
    (h : ts ≠ TransactionStatus.idle) :
    selectView ts fv = View.statusView := by
  simp [selectView, h]

/-- Witness for C2: status pending with the initial form values renders the
status view. -/
theorem status_view_forced_witness :
    TransactionStatus.pending ≠ TransactionStatus.idle
      ∧ selectView TransactionStatus.pending INITIAL_FORM_STATE
          = View.statusView :=
  ⟨by decide,
   status_view_forced TransactionStatus.pending INITIAL_FORM_STATE (by decide)⟩

/-- C3: the form counts as empty exactly when every one of its fields
equals "" or 0, and when the transaction status is idle the preview view is
rendered exactly when the form is not empty (the form view otherwise). -/
theorem empty_form_and_preview (fv : FormData) :
    (isEmptyForm fv = true ↔ formAllFieldsDefault fv)
      ∧ (selectView TransactionStatus.idle fv = View.previewView
          ↔ ¬ isEmptyForm fv = true)
      ∧ (selectView TransactionStatus.idle fv = View.formView
          ↔ isEmptyForm fv = true) := by
  refine ⟨?_, ?_, ?_⟩
  · simp [isEmptyForm, FormData.objectValues, jsEmptyOrZero,
      formAllFieldsDefault, List.all]
  · by_cases he : isEmptyForm fv = true <;> simp [selectView, he]
  · by_cases he : isEmptyForm fv = true <;> simp [selectView, he]

/-- C4 counterexample: with currency "NGN", amount 100 and selected token
"USDC", the guard passes and the fetch fires, but the outbound rate request
carries the literal token "USDT", not the currently selected token. -/
theorem rate_request_token_counterexample :
    getRate "NGN" (JNum.num 100) "USDC"
        = some { token := "USDT", amount := JNum.num 100, currency := "NGN" }
      ∧ ("USDT" : String) ≠ "USDC" := by
  constructor
  · decide
  · decide

/-- C4 amended: whenever the rate fetch fires (currency, amount and token
all present after the quiescent window), the outbound rate request is
issued with the hardcoded token "USDT" together with the current amount
and currency. -/
theorem rate_request_amended (currency token : String) (amount : JNum)
    (hc : currency ≠ "") (ha : jfalsy amount = false) (ht : token ≠ "") :
    getRate currency amount token
      = some { token := "USDT", amount := amount, currency := currency } := by
  simp [getRate, hc, ha, ht]

/-- Witness for the amended C4: a concrete passing guard produces the
"USDT"-token request. -/
theorem rate_request_amended_witness :
    getRate "NGN" (JNum.num 100) "USDT"
      = some { token := "USDT", amount := JNum.num 100, currency := "NGN" } :=
  rate_request_amended "NGN" "USDT" (JNum.num 100) (by decide) (by decide)
    (by decide)

/-- C5 counterexample: two currency changes 500ms apart lie in a single
1000ms-quiescent window, yet the institutions effect — which has no
debounce timer — issues a request at each change: two requests in one
window, so the at-most-one-per-window property fails. -/
theorem institutions_debounce_counterexample :
    institutionsRequests [(0, "NGN"), (500, "KES")] = [(0, "NGN"), (500, "KES")]
      ∧ numQuiescentWindows [0, 500] = 1
      ∧ ¬ (institutionsRequests [(0, "NGN"), (500, "KES")]).length
            ≤ numQuiescentWindows [0, 500] := by
  refine ⟨by decide, by decide, by decide⟩

/-- C5 amended: the institutions fetcher has no debounce timer at all: on
every currency change it runs immediately, issuing one request at the
change time itself for each change with a non-empty currency — one request
per change, not at most one per 1000ms-quiescent window. -/
theorem institutions_immediate (changes : List (ℕ × String)) :
    institutionsRequests changes
      = changes.filter (fun e => decide (e.2 ≠ "")) := by
  induction changes with
  | nil => rfl
  | cons e rest ih =>
      by_cases h : e.2 = "" <;>
        simp [institutionsRequests, runInstitutionsEffect, h, ih,
          List.filter_cons]

/-- Each surviving timer fires at most one fetch. -/
theorem recipientFetchAll_length_le :
    ∀ l : List RenderSnapshot, (recipientFetchAll l).length ≤ l.length
  | [] => by simp [recipientFetchAll]
  | e :: rest => by
      have ih := recipientFetchAll_length_le rest
      by_cases h : e.accountIdentifier = "" ∨ e.institution = "" <;>
        simp [recipientFetchAll, runRecipientFetch, h] <;> omega

/-- Debouncing fires exactly one timer per 1000ms-quiescent window of the
effect runs: a run's timer survives precisely when the next run is more
than 1000ms away (or there is none), which is precisely how the windows
of its run times are counted. -/
theorem debounceFire_length_windows :
    ∀ l : List RenderSnapshot,
      (debounceFire l).length = numQuiescentWindows (l.map RenderSnapshot.time)
  | [] => by simp [debounceFire, numQuiescentWindows]
  | [e] => by simp [debounceFire, numQuiescentWindows]
  | e :: e2 :: rest => by
      have ih := debounceFire_length_windows (e2 :: rest)
      by_cases h : e2.time > e.time + 1000 <;>
        simp [debounceFire, numQuiescentWindows, h, ih] <;> omega

/-- A fired timer belongs to one of the effect runs fed to the debouncer. -/
theorem debounceFire_subset :
    ∀ (l : List RenderSnapshot) (x : RenderSnapshot),
      x ∈ debounceFire l → x ∈ l
  | [], x => by simp [debounceFire]
  | [e], x => by simp [debounceFire]
  | e :: e2 :: rest, x => by
      intro hx
      by_cases h : e2.time > e.time + 1000 <;> simp [debounceFire, h] at hx
      · rcases hx with hx | hx
        · simp [hx]
        · exact List.mem_cons_of_mem e (debounceFire_subset (e2 :: rest) x hx)
      · exact List.mem_cons_of_mem e (debounceFire_subset (e2 :: rest) x hx)

/-- Every emitted recipient request comes from one of the fired timers,
1000ms after it and with the values that run captured. -/
theorem recipientFetchAll_mem :
    ∀ (l : List RenderSnapshot) (r : RecipientRequest),
      r ∈ recipientFetchAll l →
        ∃ e ∈ l, r.time = e.time + 1000 ∧ r.institution = e.institution
          ∧ r.accountIdentifier = e.accountIdentifier
  | [], r => by simp [recipientFetchAll]
  | e :: rest, r => by
      intro hr
      rw [recipientFetchAll, List.mem_append] at hr
      rcases hr with hr | hr
      · refine ⟨e, List.mem_cons_self e rest, ?_⟩
        by_cases h : e.accountIdentifier = "" ∨ e.institution = "" <;>
          simp [runRecipientFetch, h] at hr
        simp [hr]
      · obtain ⟨e2, he2, hprops⟩ := recipientFetchAll_mem rest r hr
        exact ⟨e2, List.mem_cons_of_mem e he2, hprops⟩

/-- C6 counterexample: the first render has both account identifier and
institution present, the second render changes only the institution (both
fields still present); the claim calls the institution a member of the
fetcher's dependency set, yet the effect's dependency array is only the
account identifier, so the institution change triggers nothing: the only
request ever issued is the one fired 1000ms after the mount, with the old
institution, and no request is issued at or after the second render. -/
theorem recipient_institution_change_counterexample :
    recipientRequests
        [{ time := 0, accountIdentifier := "0123456789", institution := "bankA" },
         { time := 5000, accountIdentifier := "0123456789", institution := "bankB" }]
      = [{ time := 1000, institution := "bankA", accountIdentifier := "0123456789" }]
      ∧ (recipientRequests
          [{ time := 0, accountIdentifier := "0123456789", institution := "bankA" },
           { time := 5000, accountIdentifier := "0123456789", institution := "bankB" }]).filter
            (fun r => decide (5000 ≤ r.time)) = []
      ∧ ("bankB" : String) ≠ "bankA" := by
  refine ⟨by decide, by decide, by decide⟩

/-- C6 amended: the recipient-name effect's dependency array is only the
account identifier, so only account-identifier changes (and the mount)
re-run it: a render whose account identifier equals the previous value adds
no effect run, however the institution changed; the fetch fires at most
once per 1000ms-quiescent window of those effect runs — however many
account-identifier changes fall inside one window, the requests are
bounded by the number of windows; every fetch goes out 1000ms after the
run that scheduled it, with that run's institution and account identifier;
and a single change with both fields present yields exactly one fetch
1000ms later. -/
theorem recipient_debounce_amended :
    (∀ renders : List RenderSnapshot,
        (recipientRequests renders).length
          ≤ numQuiescentWindows
              ((recipientTriggers renders).map RenderSnapshot.time))
      ∧ (∀ (prev inst : String) (t : ℕ) (rest : List RenderSnapshot),
          recipientTriggersAux prev
              ({ time := t, accountIdentifier := prev, institution := inst } :: rest)
            = recipientTriggersAux prev rest)
      ∧ (∀ (r : RecipientRequest) (renders : List RenderSnapshot),
          r ∈ recipientRequests renders →
            ∃ e ∈ recipientTriggers renders,
              r.time = e.time + 1000 ∧ r.institution = e.institution
                ∧ r.accountIdentifier = e.accountIdentifier)
      ∧ (∀ (t : ℕ) (aid inst : String), aid ≠ "" → inst ≠ "" →
          recipientRequests [{ time := t, accountIdentifier := aid, institution := inst }]
            = [{ time := t + 1000, institution := inst, accountIdentifier := aid }]) := by
  refine ⟨?_, ?_, ?_, ?_⟩
  · intro renders
    calc (recipientRequests renders).length
        ≤ (debounceFire (recipientTriggers renders)).length :=
          recipientFetchAll_length_le _
      _ = numQuiescentWindows
            ((recipientTriggers renders).map RenderSnapshot.time) :=
          debounceFire_length_windows _
  · intro prev inst t rest
    simp [recipientTriggersAux]
  · intro r renders hr
    obtain ⟨e, he, hprops⟩ := recipientFetchAll_mem _ r hr
    exact ⟨e, debounceFire_subset _ e he, hprops⟩
  · intro t aid inst haid hinst
    simp [recipientRequests, recipientTriggers, recipientTriggersAux,
      debounceFire, recipientFetchAll, runRecipientFetch, haid, hinst]

/-- Witness for the amended C6: each part applied at a concrete input — in
particular two account-identifier changes 500ms apart (one quiescent
window) yield at most one request. -/
theorem recipient_debounce_amended_witness :
    (recipientRequests
          [{ time := 0, accountIdentifier := "0123456789", institution := "bankA" },
           { time := 500, accountIdentifier := "0123456780", institution := "bankA" }]).length
        ≤ numQuiescentWindows
            ((recipientTriggers
                [{ time := 0, accountIdentifier := "0123456789", institution := "bankA" },
                 { time := 500, accountIdentifier := "0123456780", institution := "bankA" }]).map
              RenderSnapshot.time)
      ∧ recipientTriggersAux "0123456789"
            [{ time := 3, accountIdentifier := "0123456789", institution := "bankB" }]
          = recipientTriggersAux "0123456789" []
      ∧ recipientRequests
            [{ time := 0, accountIdentifier := "0123456789", institution := "bankA" }]
          = [{ time := 1000, institution := "bankA", accountIdentifier := "0123456789" }] :=
  ⟨recipient_debounce_amended.1
      [{ time := 0, accountIdentifier := "0123456789", institution := "bankA" },
       { time := 500, accountIdentifier := "0123456780", institution := "bankA" }],
   recipient_debounce_amended.2.1 "0123456789" "bankB" 3 [],
   recipient_debounce_amended.2.2.2 0 "0123456789" "bankA" (by decide) (by decide)⟩

/-- C7: every fetch failure is caught locally. A failed recipient-name
fetch resets recipientName to "" (and clears its own fetching flag),
touching no other slot; a failed institutions fetch and a failed rate
fetch only log, leaving the whole state — in particular the institutions
and rate slots — unchanged. -/
theorem fetch_failure_handling (s : HomeState) :
    recipientFailure s
        = { s with recipientName := "", isFetchingRecipientName := false }
      ∧ (recipientFailure s).institutions = s.institutions
      ∧ (recipientFailure s).isFetchingInstitutions = s.isFetchingInstitutions
      ∧ (recipientFailure s).rate = s.rate
      ∧ (recipientFailure s).isFetchingRate = s.isFetchingRate
      ∧ institutionsFailure s = s
      ∧ rateFailure s = s :=
  ⟨rfl, rfl, rfl, rfl, rfl, rfl, rfl⟩

/-- C8: the three fetchers write disjoint state slots — each completion
(success or failure) modifies only its own data slot and fetching flag —
and any two completions of distinct fetchers commute, so no interleaving
order between them changes the final state. -/
theorem disjoint_state_slots :
    (∀ (s : HomeState) (v : List InstitutionProps),
        (institutionsSuccess v s).recipientName = s.recipientName
          ∧ (institutionsSuccess v s).isFetchingRecipientName
              = s.isFetchingRecipientName
          ∧ (institutionsSuccess v s).rate = s.rate
          ∧ (institutionsSuccess v s).isFetchingRate = s.isFetchingRate)
      ∧ (∀ (s : HomeState) (n : String),
          (recipientSuccess n s).institutions = s.institutions
            ∧ (recipientSuccess n s).isFetchingInstitutions
                = s.isFetchingInstitutions
            ∧ (recipientSuccess n s).rate = s.rate
            ∧ (recipientSuccess n s).isFetchingRate = s.isFetchingRate)
      ∧ (∀ (s : HomeState) (r : ℚ),
          (rateSuccess r s).institutions = s.institutions
            ∧ (rateSuccess r s).isFetchingInstitutions = s.isFetchingInstitutions
            ∧ (rateSuccess r s).recipientName = s.recipientName
            ∧ (rateSuccess r s).isFetchingRecipientName
                = s.isFetchingRecipientName)
      ∧ (∀ (s : HomeState) (v : List InstitutionProps) (n : String),
          institutionsSuccess v (recipientSuccess n s)
            = recipientSuccess n (institutionsSuccess v s))
      ∧ (∀ (s : HomeState) (v : List InstitutionProps) (r : ℚ),
          institutionsSuccess v (rateSuccess r s)
            = rateSuccess r (institutionsSuccess v s))
      ∧ (∀ (s : HomeState) (n : String) (r : ℚ),
          recipientSuccess n (rateSuccess r s)
            = rateSuccess r (recipientSuccess n s))
      ∧ (∀ (s : HomeState) (v : List InstitutionProps),
          institutionsSuccess v (recipientFailure s)
            = recipientFailure (institutionsSuccess v s))
      ∧ (∀ (s : HomeState) (v : List InstitutionProps),
          institutionsSuccess v (rateFailure s)
            = rateFailure (institutionsSuccess v s))
      ∧ (∀ (s : HomeState) (n : String),
          recipientSuccess n (institutionsFailure s)
            = institutionsFailure (recipientSuccess n s))
      ∧ (∀ (s : HomeState) (n : String),
          recipientSuccess n (rateFailure s)
            = rateFailure (recipientSuccess n s))
      ∧ (∀ (s : HomeState) (r : ℚ),
          rateSuccess r (institutionsFailure s)
            = institutionsFailure (rateSuccess r s))
      ∧ (∀ (s : HomeState) (r : ℚ),
          rateSuccess r (recipientFailure s)
            = recipientFailure (rateSuccess r s))
      ∧ (∀ s : HomeState,
          institutionsFailure (recipientFailure s)
            = recipientFailure (institutionsFailure s))
      ∧ (∀ s : HomeState,
          institutionsFailure (rateFailure s)
            = rateFailure (institutionsFailure s))
      ∧ (∀ s : HomeState,
          recipientFailure (rateFailure s)
            = rateFailure (recipientFailure s)) :=
  ⟨fun s v => ⟨rfl, rfl, rfl, rfl⟩,
   fun s n => ⟨rfl, rfl, rfl, rfl⟩,
   fun s r => ⟨rfl, rfl, rfl, rfl⟩,
   fun s v n => rfl,
   fun s v r => rfl,
   fun s n r => rfl,
   fun s v => rfl,
   fun s v => rfl,
   fun s n => rfl,
   fun s n => rfl,
   fun s r => rfl,
   fun s r => rfl,
   fun s => rfl,
   fun s => rfl,
   fun s => rfl⟩

/-- C9: the institutions and rate catch blocks never touch their loading
flags, so a flag set to true before a failing request stays true; only the
recipient-name catch block clears its flag. -/
theorem failure_leaves_loading_flag (s : HomeState) :
    (institutionsFailure (institutionsStart s)).isFetchingInstitutions = true
      ∧ (rateFailure (rateStart s)).isFetchingRate = true
      ∧ (recipientFailure (recipientStart s)).isFetchingRecipientName = false
      ∧ (institutionsFailure s).isFetchingInstitutions
          = s.isFetchingInstitutions
      ∧ (rateFailure s).isFetchingRate = s.isFetchingRate :=
  ⟨rfl, rfl, rfl, rfl, rfl⟩

/-- C10: while the contract read is unresolved, Number(undefined) over
Number(undefined) makes the stored protocol fee percent NaN; the run after
that one sets the fee to NaN (in particular, starting from the initial
zero state the fee ends up NaN, not 0); and every run computes the fee
from the protocol fee percent of the previous render, not the one derived
in the same run. -/
theorem fee_nan_before_contract_read (amount a2 : JNum) (s s2 : FeeState)
    (details : Option (ℤ × ℤ)) :
    (feeEffect none amount s).protocolFeePercent = JNum.nan
      ∧ (feeEffect none amount (feeEffect none amount s)).fee = JNum.nan
      ∧ (feeEffect none amount (feeEffect none amount initialFeeState)).fee
          ≠ JNum.num 0
      ∧ (feeEffect details a2 s2).fee = round5j (jmul s2.protocolFeePercent a2) := by
  refine ⟨rfl, ?_, ?_, rfl⟩
  · cases amount <;> rfl
  · cases amount <;> simp [feeEffect, feeDetailsNum, jdiv, jmul, round5j,
      initialFeeState]
